import Mathlib

/-!
Shallow embedding of `src/tts_server.py` (Speak11 persistent TTS daemon).

The daemon's lifecycle layer is modelled as pure functions over an explicit
`State` record, emitting a list of observable events `Ev`.  External
collaborators (the synthesis model, the JSON library, the peer socket, the
OS clock and parent-pid reads) are modelled as oracle inputs: each function
takes the outcome the collaborator produced on that call.  Time is modelled
as rational seconds, process ids as naturals.
-/

namespace TtsServer

/-- Wall-clock time in seconds, modelled as a rational number. -/
abbrev Time := ℚ

/-- Observable events emitted by the daemon's lifecycle code.  Each
constructor corresponds to one side-effecting statement of the source. -/
inductive Ev where
  /-- `last_request_time = time.time()` at the top of `handle_client`. -/
  | setLastRequest (t : Time)
  /-- the `conn.recv` loop of `handle_client` (bytes read or exception). -/
  | recvBytes
  /-- `log(f"request: ...")` in `handle_client`. -/
  | logRequest
  /-- the call `generate_audio(text, voice, speed, lang_code)`. -/
  | invokeGenerate (text voice speed lang : String)
  /-- `conn.sendall` of the ok-form response, completed. -/
  | sendOk (path : String)
  /-- `conn.sendall` of the ok-form response, attempted but raised `OSError`. -/
  | sendAttemptOk (path : String)
  /-- `log(f"response: ...")` in `handle_client`. -/
  | logResponse
  /-- `log(f"error: ...")` in the `except Exception` block of `handle_client`. -/
  | logError
  /-- `conn.sendall` of the error-form response, completed. -/
  | sendError (msg : String)
  /-- `conn.sendall` of the error-form response, attempted but raised
  `OSError` (swallowed by `except OSError: pass`). -/
  | sendAttemptError (msg : String)
  /-- `conn.close()` in the `finally` block (an `OSError` there is swallowed). -/
  | closeConn
  /-- `shutdown_event.set()` in `do_shutdown`. -/
  | setFlag
  /-- `server_socket.close()` in `do_shutdown` (only when `server_socket is not None`). -/
  | closeSocket
  /-- `os.unlink(SOCKET_PATH)` in `do_shutdown` (`FileNotFoundError` ignored). -/
  | unlinkSocketFile
  /-- `os.unlink(PID_FILE)` in `do_shutdown` (`FileNotFoundError` ignored). -/
  | unlinkPidFile
  /-- `log("shutdown complete")` in `do_shutdown`. -/
  | logShutdownComplete
  /-- `os._exit(code)`: immediate process termination, no cleanup, no
  waiting for other threads. -/
  | exitProcess (code : Nat)
  /-- `log(f"received signal ...")` in `handle_signal`. -/
  | logReceivedSignal (signum : Nat)
  /-- `log("socket error in accept loop")` in the accept loop of `main`. -/
  | logSocketError
  /-- `log("warming up pipeline")` in `warmup_pipeline`. -/
  | logWarmingUp
  /-- `log("pipeline warm")` in `warmup_pipeline`. -/
  | logPipelineWarm
  /-- `log(f"warmup failed (non-fatal): ...")` in `warmup_pipeline`. -/
  | logWarmupFailed (msg : String)
deriving Repr, DecidableEq

/-- The daemon's process-global state: the module-level globals of
`tts_server.py` together with the filesystem objects it owns. -/
structure State where
  /-- global `last_request_time`. -/
  lastRequestTime : Time
  /-- global `shutdown_event` (a `threading.Event`), `true` when set. -/
  shutdownSet : Bool
  /-- whether global `server_socket` has been assigned (`is not None`). -/
  socketBound : Bool
  /-- whether the socket filesystem object `SOCKET_PATH` exists. -/
  socketFileExists : Bool
  /-- whether the PID record `PID_FILE` exists. -/
  pidFileExists : Bool
  /-- `some code` once the process has terminated with that exit status. -/
  exited : Option Nat
deriving Repr, DecidableEq

/-- Sequence two state transformers, concatenating their event lists. -/
def andThen (a : State × List Ev) (f : State → State × List Ev) : State × List Ev :=
  let r := f a.1
  (r.1, a.2 ++ r.2)

/-- `shutdown_event.set()`. -/
def set_shutdown_flag (s : State) : State × List Ev :=
  ({ s with shutdownSet := true }, [Ev.setFlag])

/-- `if server_socket is not None: try: server_socket.close() except OSError: pass`.
Closing never unsets the Python variable, so `socketBound` is unchanged. -/
def close_server_socket (s : State) : State × List Ev :=
  if s.socketBound then (s, [Ev.closeSocket]) else (s, [])

/-- `try: os.unlink(SOCKET_PATH) except FileNotFoundError: pass`. -/
def unlink_socket_file (s : State) : State × List Ev :=
  ({ s with socketFileExists := false }, [Ev.unlinkSocketFile])

/-- `try: os.unlink(PID_FILE) except FileNotFoundError: pass`. -/
def unlink_pid_file (s : State) : State × List Ev :=
  ({ s with pidFileExists := false }, [Ev.unlinkPidFile])

/-- `os._exit(code)`: terminates immediately, bypassing cleanup handlers and
without joining other threads. -/
def os_exit (code : Nat) (s : State) : State × List Ev :=
  ({ s with exited := some code }, [Ev.exitProcess code])

/-- `do_shutdown` (lines 228-242): set the flag, close the listening socket
if assigned, unlink the socket object and the PID record ignoring
`FileNotFoundError`, log completion, and `os._exit(0)`. -/
def do_shutdown (s : State) : State × List Ev :=
  andThen (andThen (andThen (andThen (andThen
    (set_shutdown_flag s)
    close_server_socket)
    unlink_socket_file)
    unlink_pid_file)
    (fun st => (st, [Ev.logShutdownComplete])))
    (os_exit 0)

/-- `handle_signal` (lines 245-247): log the signal number, then call
`do_shutdown()` directly from the handler. -/
def handle_signal (signum : Nat) (s : State) : State × List Ev :=
  let r := do_shutdown s
  (r.1, Ev.logReceivedSignal signum :: r.2)

/-- Python exceptions that can arise inside `handle_client`'s `try` block.
All of these are subclasses of `Exception` in Python, so all are caught by
the handler's `except Exception` clause. -/
inductive PyExc where
  /-- `json.loads` failure (`json.JSONDecodeError`, a `ValueError`), or the
  `AttributeError` from `request.get` when the parsed value is not an object. -/
  | valueError (msg : String)
  /-- a failure raised out of `generate_audio` (engine error, `RuntimeError`
  for empty output, `ValueError` from `float(speed)`, ...). -/
  | runtimeError (msg : String)
  /-- an `OSError` from the socket (including `socket.timeout` on `recv`). -/
  | osError (msg : String)
deriving Repr, DecidableEq

/-- Python `str(e)` for the modelled exceptions. -/
def PyExc.str : PyExc → String
  | .valueError m => m
  | .runtimeError m => m
  | .osError m => m

/-- The JSON object decoded from the request line: the four fields consulted
via `request.get`, each absent or present. -/
structure RawRequest where
  text : Option String
  voice : Option String
  speed : Option String
  lang_code : Option String
deriving Repr, DecidableEq

instance {ε α : Type} [DecidableEq ε] [DecidableEq α] : DecidableEq (Except ε α) :=
  fun a b =>
    match a, b with
    | .ok x, .ok y =>
      if h : x = y then .isTrue (by rw [h])
      else .isFalse (fun hh => h (Except.ok.inj hh))
    | .error x, .error y =>
      if h : x = y then .isTrue (by rw [h])
      else .isFalse (fun hh => h (Except.error.inj hh))
    | .ok _, .error _ => .isFalse (fun hh => Except.noConfusion hh)
    | .error _, .ok _ => .isFalse (fun hh => Except.noConfusion hh)

/-- One accepted connection, bundling the outcomes the external world (peer
socket, JSON library, synthesis engine) produces during its handling:
`now` is the value of `time.time()` at entry; `recv` is the accumulated
received data (bytes, modelled as characters) or the exception raised while
receiving; `parse` is the outcome of `json.loads` on the stripped data
(consulted only when data is nonempty); `gen` is the outcome of
`generate_audio` (consulted only when parsing succeeded); `okSendFail` is
`some msg` when `sendall` of the ok-response raises `OSError(msg)`;
`errSendFails` is true when `sendall` of the error-response raises `OSError`
(which the source swallows). -/
structure ClientConn where
  now : Time
  recv : Except PyExc (List Char)
  parse : Except String RawRequest
  gen : Except String String
  okSendFail : Option String
  errSendFails : Bool
deriving Repr, DecidableEq

/-- Python `not data.strip()`: true exactly when the received data contains
nothing but whitespace — in particular when no data at all was received. -/
def stripEmpty (data : List Char) : Bool :=
  data.all Char.isWhitespace

/-- The part of `handle_client`'s `try` block after the recv loop completed
without raising: the events it emits and the exception it raises, if any. -/
def handle_client_after_recv (c : ClientConn) (data : List Char) :
    List Ev × Option PyExc :=
  if stripEmpty data then
    ([], none)
  else
    match c.parse with
    | .error m => ([], some (PyExc.valueError m))
    | .ok req =>
      let text := req.text.getD ""
      let voice := req.voice.getD "bf_lily"
      let speed := req.speed.getD "1.00"
      let lang := req.lang_code.getD "b"
      match c.gen with
      | .error m =>
        ([Ev.logRequest, Ev.invokeGenerate text voice speed lang],
         some (PyExc.runtimeError m))
      | .ok path =>
        match c.okSendFail with
        | some m =>
          ([Ev.logRequest, Ev.invokeGenerate text voice speed lang,
            Ev.sendAttemptOk path],
           some (PyExc.osError m))
        | none =>
          ([Ev.logRequest, Ev.invokeGenerate text voice speed lang,
            Ev.sendOk path, Ev.logResponse],
           none)

/-- The `try` block of `handle_client` (lines 145-171): the events it emits
and the exception it raises, if any.  Every branch first attempts the recv
loop, which either yields data or raises. -/
def handle_client_try (c : ClientConn) : List Ev × Option PyExc :=
  match c.recv with
  | .error e => (Ev.recvBytes :: [], some e)
  | .ok data =>
    let after := handle_client_after_recv c data
    (Ev.recvBytes :: after.1, after.2)

/-- The `except Exception` block of `handle_client` (lines 173-179): log the
error, then attempt to send the error-form response; an `OSError` from that
send is swallowed. -/
def handle_client_exc (e : PyExc) (errSendFails : Bool) : List Ev :=
  Ev.logError ::
    (if errSendFails then [Ev.sendAttemptError e.str] else [Ev.sendError e.str])

/-- `handle_client` (lines 140-184).  The first statement sets the global
`last_request_time`; then the `try` body runs, any exception is contained by
the `except Exception` block, and the `finally` block closes the connection
on every path (an `OSError` from `close` is swallowed).  The function never
propagates an exception, because every modelled exception is an `Exception`
subclass. -/
def handle_client (c : ClientConn) (s : State) : State × List Ev :=
  let te := handle_client_try c
  let excEvs : List Ev :=
    match te.2 with
    | none => []
    | some e => handle_client_exc e c.errSendFails
  ({ s with lastRequestTime := c.now },
   (Ev.setLastRequest c.now :: (te.1 ++ excEvs)) ++ [Ev.closeConn])

/-- Whether an event is a write of any response to the peer (completed or
attempted). -/
def Ev.isSend : Ev → Bool
  | .sendOk _ => true
  | .sendAttemptOk _ => true
  | .sendError _ => true
  | .sendAttemptError _ => true
  | _ => false

/-- Action taken by one iteration of `idle_watchdog`'s loop. -/
inductive IdleAction where
  /-- the `while not shutdown_event.is_set()` condition was false: loop ends. -/
  | exitLoop
  /-- `remaining ≤ 0`: log, call `do_shutdown()`, and return. -/
  | triggerShutdown
  /-- `shutdown_event.wait(d)`: a wait of at most `d` seconds on the shared
  shutdown event, hence interruptible by the shutdown signal. -/
  | waitShutdownEvent (d : Time)
deriving Repr, DecidableEq

/-- One iteration of `idle_watchdog` (lines 190-198): given the idle timeout,
the flag observed at the loop head, the current `time.time()` and the
current `last_request_time`. -/
def idle_watchdog_iter (idleTimeout : Time) (flag : Bool) (now lastReq : Time) :
    IdleAction :=
  if flag then
    IdleAction.exitLoop
  else
    let remaining := idleTimeout - (now - lastReq)
    if remaining ≤ 0 then IdleAction.triggerShutdown
    else IdleAction.waitShutdownEvent (min (remaining + 1/2) 10)

/-- What `idle_watchdog` observes at one loop head: the shutdown flag, the
clock, and the current `last_request_time` (written concurrently by the
accept loop). -/
structure IdleObs where
  flag : Bool
  now : Time
  lastReq : Time
deriving Repr, DecidableEq

/-- The `idle_watchdog` loop run over a finite window of observations.  An
empty window means the loop is still running (no action yet); otherwise the
loop either ends (flag set or shutdown triggered) or waits and re-checks. -/
def idle_watchdog_run (idleTimeout : Time) : List IdleObs → List IdleAction
  | [] => []
  | o :: rest =>
    match idle_watchdog_iter idleTimeout o.flag o.now o.lastReq with
    | IdleAction.exitLoop => [IdleAction.exitLoop]
    | IdleAction.triggerShutdown => [IdleAction.triggerShutdown]
    | IdleAction.waitShutdownEvent d =>
      IdleAction.waitShutdownEvent d :: idle_watchdog_run idleTimeout rest

/-- Action taken by `parent_watchdog`. -/
inductive PwAction where
  /-- parent pid ≤ 1 at startup: log, `do_shutdown()`, return. -/
  | shutdownOrphanAtStart
  /-- `log(f"parent watchdog started ...")`. -/
  | started
  /-- the `while not shutdown_event.is_set()` condition was false: loop ends. -/
  | exitLoop
  /-- `os.getppid()` differs from the recorded pid: log, `do_shutdown()`, return. -/
  | shutdownParentChanged (recorded cur : Nat)
  /-- `shutdown_event.wait(2)`: a 2-second wait on the shared shutdown event,
  hence interruptible by the shutdown signal. -/
  | waitTwoSeconds
deriving Repr, DecidableEq

/-- What `parent_watchdog` observes at one loop head: the shutdown flag and
the current `os.getppid()`. -/
structure PwObs where
  flag : Bool
  ppid : Nat
deriving Repr, DecidableEq

/-- The `while` loop of `parent_watchdog` (lines 217-222), comparing every
observed parent pid against the pid recorded once at startup. -/
def parent_watchdog_loop (parentPid : Nat) : List PwObs → List PwAction
  | [] => []
  | o :: rest =>
    if o.flag then [PwAction.exitLoop]
    else if o.ppid ≠ parentPid then [PwAction.shutdownParentChanged parentPid o.ppid]
    else PwAction.waitTwoSeconds :: parent_watchdog_loop parentPid rest

/-- `parent_watchdog` (lines 204-222): `os.getppid()` is read exactly once
into `parent_pid`; an orphan condition (`parent_pid <= 1`) shuts down
immediately, otherwise the comparison loop runs. -/
def parent_watchdog_run (parentPid : Nat) (obs : List PwObs) : List PwAction :=
  if parentPid ≤ 1 then [PwAction.shutdownOrphanAtStart]
  else PwAction.started :: parent_watchdog_loop parentPid obs

/-- `warmup_pipeline` (lines 70-84): one throwaway generate call wrapped in
`try: ... except Exception`, so a failure is logged and never propagated;
`gen` is the outcome of the underlying `model.generate` call. -/
def warmup_pipeline (gen : Except String Unit) : List Ev :=
  Ev.logWarmingUp ::
    match gen with
    | .ok _ => [Ev.logPipelineWarm]
    | .error m => [Ev.logWarmupFailed m]

/-- Outcome of one `server_socket.accept()` call in the accept loop. -/
inductive AcceptOutcome where
  /-- a connection was accepted and handed to `handle_client`. -/
  | connection (c : ClientConn)
  /-- `socket.timeout` after the 5-second bounded wait: `continue`. -/
  | acceptTimeout
  /-- any other `OSError` from the listening socket; `flagWhenChecked` is the
  value of `shutdown_event.is_set()` re-read inside the handler (it may have
  been set concurrently since the loop head). -/
  | socketError (flagWhenChecked : Bool)
deriving Repr, DecidableEq

/-- One loop head of the accept loop: the shutdown flag observed by the
`while` condition, and what the iteration's `accept()` produced. -/
structure AcceptStep where
  flagAtTop : Bool
  outcome : AcceptOutcome
deriving Repr, DecidableEq

/-- The accept loop of `main` (lines 318-329) over a finite window of loop
heads, followed by the `do_shutdown()` call after the loop.  An exhausted
window means the loop is still running.  `socket.timeout` continues; a
connection is fully handled and the loop continues; any other `OSError`
logs (only when the flag is not yet set) and breaks, and the break falls
through to `do_shutdown()`; a set flag ends the loop, also falling through
to `do_shutdown()`. -/
def accept_loop : List AcceptStep → State → State × List Ev
  | [], s => (s, [])
  | step :: rest, s =>
    if step.flagAtTop then
      do_shutdown s
    else
      match step.outcome with
      | AcceptOutcome.connection c =>
        let r1 := handle_client c s
        let r2 := accept_loop rest r1.1
        (r2.1, r1.2 ++ r2.2)
      | AcceptOutcome.acceptTimeout => accept_loop rest s
      | AcceptOutcome.socketError flagErr =>
        let pre : List Ev := if flagErr then [] else [Ev.logSocketError]
        let r := do_shutdown s
        (r.1, pre ++ r.2)

/-- An accept-loop head with the shutdown flag unset that accepted `c`. -/
def connStep (c : ClientConn) : AcceptStep :=
  { flagAtTop := false, outcome := AcceptOutcome.connection c }

/-- An accept-loop head with the shutdown flag unset whose `accept()` timed
out after its 5-second bounded wait. -/
def timeoutStep : AcceptStep :=
  { flagAtTop := false, outcome := AcceptOutcome.acceptTimeout }

/-- An accept-loop head with the shutdown flag unset whose `accept()` raised
a non-timeout `OSError`; `flagErr` is the flag re-read inside the handler. -/
def errStep (flagErr : Bool) : AcceptStep :=
  { flagAtTop := false, outcome := AcceptOutcome.socketError flagErr }

/-- The startup steps of `main` (lines 253-329), in source order. -/
inductive StartupStep where
  /-- `os.makedirs(DATA_DIR, exist_ok=True)`. -/
  | ensureDataDir
  /-- `open(LOCK_FILE, "w")` + `fcntl.flock(..., LOCK_EX | LOCK_NB)`. -/
  | tryAcquireLock
  /-- `sys.exit(0)` when the lock is held by another instance. -/
  | exitAlreadyRunning
  /-- write `PID_FILE` with the current pid. -/
  | writePidRecord
  /-- `os.unlink(SOCKET_PATH)` ignoring `FileNotFoundError`. -/
  | removeStaleSocket
  /-- delete every leftover `speak11_tts_*` temporary directory. -/
  | purgeTempDirs
  /-- install `handle_signal` for `SIGTERM` and `SIGINT`. -/
  | installSignalHandlers
  /-- `load_tts_model()` (blocking; an exception here propagates out of
  `main` and kills the process). -/
  | loadModel
  /-- `warmup_pipeline()`; the boolean records whether the inner generate
  call succeeded — either way the step completes normally. -/
  | warmupGeneration (ok : Bool)
  /-- start the `idle_watchdog` daemon thread. -/
  | startIdleWatchdog
  /-- start the `parent_watchdog` daemon thread. -/
  | startParentWatchdog
  /-- create, bind and listen the Unix socket (the readiness signal). -/
  | bindListenSocket
  /-- enter the accept loop. -/
  | enterAcceptLoop
deriving Repr, DecidableEq

/-- Environmental inputs that decide `main`'s startup path. -/
structure MainEnv where
  /-- whether `--managed` was passed in `sys.argv`. -/
  managedMode : Bool
  /-- whether the non-blocking `flock` succeeds (no other instance holds it). -/
  lockAvailable : Bool
  /-- whether `load_tts_model()` completes without raising. -/
  loadModelOk : Bool
  /-- whether the generate call inside `warmup_pipeline` succeeds. -/
  warmupOk : Bool
deriving Repr, DecidableEq

/-- The filesystem objects `main`'s startup touches. -/
structure Fs where
  dataDirExists : Bool
  /-- `LOCK_FILE` exists (created/truncated by `open(LOCK_FILE, "w")`). -/
  lockFileExists : Bool
  /-- content (writer's pid) of `PID_FILE`, if it exists. -/
  pidFile : Option Nat
  socketFileExists : Bool
  /-- number of leftover `speak11_tts_*` temporary directories. -/
  staleTempDirCount : Nat
deriving Repr, DecidableEq

/-- How `main`'s startup phase ends. -/
inductive MainOutcome where
  /-- `sys.exit(code)`. -/
  | exited (code : Nat)
  /-- an unhandled exception (model load failure) propagates out of `main`:
  the process dies abnormally before reaching Ready. -/
  | fatalUnhandled
  /-- startup completed: socket bound, accept loop entered. -/
  | ready
deriving Repr, DecidableEq

/-- The startup phase of `main` (lines 253-318): the ordered step trace it
executes, the resulting filesystem, and how it ends.  `pid` is the current
process id.  `open(LOCK_FILE, "w")` runs before the lock attempt, so the
data directory and lock file exist on every path; the PID record, stale
socket removal and temp-dir purge happen only after the lock is acquired;
a model-load failure stops the trace before warmup; warmup failure does not
stop anything; the socket file appears at bind time. -/
def main_startup (pid : Nat) (env : MainEnv) (fs : Fs) :
    List StartupStep × Fs × MainOutcome :=
  let fs1 : Fs := { fs with dataDirExists := true, lockFileExists := true }
  if env.lockAvailable = false then
    ([StartupStep.ensureDataDir, StartupStep.tryAcquireLock,
      StartupStep.exitAlreadyRunning],
     fs1, MainOutcome.exited 0)
  else
    let fs2 : Fs :=
      { fs1 with pidFile := some pid, socketFileExists := false,
                 staleTempDirCount := 0 }
    if env.loadModelOk = false then
      ([StartupStep.ensureDataDir, StartupStep.tryAcquireLock,
        StartupStep.writePidRecord, StartupStep.removeStaleSocket,
        StartupStep.purgeTempDirs, StartupStep.installSignalHandlers,
        StartupStep.loadModel],
       fs2, MainOutcome.fatalUnhandled)
    else
      ([StartupStep.ensureDataDir, StartupStep.tryAcquireLock,
        StartupStep.writePidRecord, StartupStep.removeStaleSocket,
        StartupStep.purgeTempDirs, StartupStep.installSignalHandlers,
        StartupStep.loadModel, StartupStep.warmupGeneration env.warmupOk,
        (if env.managedMode then StartupStep.startParentWatchdog
         else StartupStep.startIdleWatchdog),
        StartupStep.bindListenSocket, StartupStep.enterAcceptLoop],
       { fs2 with socketFileExists := true }, MainOutcome.ready)

/-- Whether a startup step starts a watchdog thread. -/
def StartupStep.startsWatchdog : StartupStep → Bool
  | StartupStep.startIdleWatchdog => true
  | StartupStep.startParentWatchdog => true
  | _ => false

/-- The successive daemon states produced by a sequence of accepted
connections, starting from `s` (the initial state included). -/
def client_states (conns : List ClientConn) (s : State) : List State :=
  conns.scanl (fun st c => (handle_client c st).1) s

/-- A concrete Ready-state daemon (socket assigned, records present) used
for concrete instantiations. -/
def sigState0 : State :=
  { lastRequestTime := 0, shutdownSet := false, socketBound := true,
    socketFileExists := true, pidFileExists := true, exited := none }

/-- A concrete filesystem holding a first instance's records. -/
def fs0 : Fs :=
  { dataDirExists := true, lockFileExists := true, pidFile := some 7,
    socketFileExists := true, staleTempDirCount := 3 }

/-- A concrete connection that sends no data at all. -/
def connEmpty : ClientConn :=
  { now := 1, recv := Except.ok [], parse := Except.error "unused",
    gen := Except.error "unused", okSendFail := none, errSendFails := false }

/-- A concrete connection whose data does not parse as a JSON object. -/
def connBad : ClientConn :=
  { now := 2, recv := Except.ok ['z'], parse := Except.error "Expecting value",
    gen := Except.ok "unused", okSendFail := none, errSendFails := false }

/-- A concrete connection whose recv loop raises `socket.timeout`. -/
def connTimeout : ClientConn :=
  { now := 3, recv := Except.error (PyExc.osError "timed out"),
    parse := Except.error "unused", gen := Except.error "unused",
    okSendFail := none, errSendFails := false }

/-- A concrete environment for a second instance: the lock is held
elsewhere. -/
def envLocked : MainEnv :=
  { managedMode := false, lockAvailable := false,
    loadModelOk := true, warmupOk := true }

/-- A concrete default-mode environment where every startup step succeeds. -/
def envDefaultOk : MainEnv :=
  { managedMode := false, lockAvailable := true,
    loadModelOk := true, warmupOk := true }

/-- A concrete managed-mode environment where model load fails. -/
def envManagedLoadFail : MainEnv :=
  { managedMode := true, lockAvailable := true,
    loadModelOk := false, warmupOk := true }

/-! ## Theorems -/

/-- C3: `do_shutdown`, the single shutdown routine invoked by every trigger
source, performs exactly this sequence: set the shared shutdown flag, close
the listening socket if assigned, unlink the socket object and the PID
record ignoring not-found errors, record completion, and terminate the
process immediately with exit status 0; and it is idempotent on the daemon
state, so invoking it from any source, in any order, is safe. -/
theorem do_shutdown_sequence_idempotent (s : State) :
    (do_shutdown s).2
      = Ev.setFlag ::
          ((if s.socketBound then [Ev.closeSocket] else []) ++
            [Ev.unlinkSocketFile, Ev.unlinkPidFile, Ev.logShutdownComplete,
             Ev.exitProcess 0])
    ∧ (do_shutdown s).1
        = { s with shutdownSet := true, socketFileExists := false,
                   pidFileExists := false, exited := some 0 }
    ∧ (do_shutdown (do_shutdown s).1).1 = (do_shutdown s).1 := by
  cases h : s.socketBound <;>
    simp [do_shutdown, andThen, set_shutdown_flag, close_server_socket,
      unlink_socket_file, unlink_pid_file, os_exit, h]

/-- C1 (counterexample): at a concrete Ready state, the termination-signal
handler itself emits the socket close, both file deletions and the process
exit — it does not restrict itself to setting the shared shutdown flag, so
the claim that cleanup runs on a separate task observing the flag is false
of the code. -/
theorem handle_signal_not_minimal_counterexample :
    Ev.closeSocket ∈ (handle_signal 15 sigState0).2
    ∧ Ev.unlinkSocketFile ∈ (handle_signal 15 sigState0).2
    ∧ Ev.unlinkPidFile ∈ (handle_signal 15 sigState0).2
    ∧ Ev.exitProcess 0 ∈ (handle_signal 15 sigState0).2 := by
  simp [handle_signal, do_shutdown, andThen, set_shutdown_flag,
    close_server_socket, unlink_socket_file, unlink_pid_file, os_exit,
    sigState0]

/-- C1 (amended): on every delivered termination signal the handler logs the
signal number and then itself runs the full shutdown sequence — setting the
flag, closing the listening socket when assigned, deleting the socket and
PID records, and exiting immediately with status 0 — rather than only
setting the flag and deferring cleanup to a regular task. -/
theorem handle_signal_runs_full_shutdown (n : Nat) (s : State) :
    (handle_signal n s).2
      = Ev.logReceivedSignal n :: Ev.setFlag ::
          ((if s.socketBound then [Ev.closeSocket] else []) ++
            [Ev.unlinkSocketFile, Ev.unlinkPidFile, Ev.logShutdownComplete,
             Ev.exitProcess 0])
    ∧ (handle_signal n s).1 = (do_shutdown s).1
    ∧ (handle_signal n s).1.exited = some 0 := by
  cases h : s.socketBound <;>
    simp [handle_signal, do_shutdown, andThen, set_shutdown_flag,
      close_server_socket, unlink_socket_file, unlink_pid_file, os_exit, h]

/-- C2: when another instance already holds the exclusive lock, a second
`main` invocation exits with success status 0 and leaves the first
instance's socket object and PID record exactly as they were. -/
theorem second_instance_exits_zero_frame (pid : Nat) (env : MainEnv) (fs : Fs)
    (h : env.lockAvailable = false) :
    (main_startup pid env fs).2.2 = MainOutcome.exited 0
    ∧ (main_startup pid env fs).2.1.socketFileExists = fs.socketFileExists
    ∧ (main_startup pid env fs).2.1.pidFile = fs.pidFile := by
  simp [main_startup, h]

/-- Witness for C2: a concrete second instance, started against a
filesystem holding the first instance's records. -/
theorem second_instance_exits_zero_frame_witness :
    (main_startup 42 envLocked fs0).2.2 = MainOutcome.exited 0
    ∧ (main_startup 42 envLocked fs0).2.1.socketFileExists
        = fs0.socketFileExists
    ∧ (main_startup 42 envLocked fs0).2.1.pidFile = fs0.pidFile :=
  second_instance_exits_zero_frame 42 envLocked fs0 rfl

/-- C4: any exception in a single connection's handling is contained to that
connection: it is logged and converted to an error-form write attempt, the
connection is closed on every exit path, and the accept loop continues with
the subsequent connections for every possible connection outcome; an
`accept` timeout also continues; only a non-timeout `OSError` from the
listening socket exits the loop, and that path (logging only outside an
intentional shutdown) routes into the same shutdown sequence, ending in
`exitProcess 0`. -/
theorem connection_failure_contained (c : ClientConn) (s : State)
    (rest : List AcceptStep) (flagErr : Bool) (e : PyExc) :
    accept_loop (connStep c :: rest) s
      = ((accept_loop rest (handle_client c s).1).1,
         (handle_client c s).2 ++ (accept_loop rest (handle_client c s).1).2)
    ∧ ((handle_client_try c).2 = some e →
        Ev.logError ∈ (handle_client c s).2
        ∧ (if c.errSendFails then Ev.sendAttemptError e.str
           else Ev.sendError e.str) ∈ (handle_client c s).2)
    ∧ (handle_client c s).2.getLast? = some Ev.closeConn
    ∧ accept_loop (timeoutStep :: rest) s = accept_loop rest s
    ∧ accept_loop (errStep flagErr :: rest) s
        = ((do_shutdown s).1,
           (if flagErr then [] else [Ev.logSocketError]) ++ (do_shutdown s).2)
    ∧ Ev.exitProcess 0 ∈ (accept_loop (errStep flagErr :: rest) s).2 := by
  refine ⟨?_, fun h => ⟨?_, ?_⟩, ?_, ?_, ?_, ?_⟩
  · simp [accept_loop, connStep]
  · simp [handle_client, h, handle_client_exc]
  · cases he : c.errSendFails <;>
      simp [handle_client, h, handle_client_exc, he]
  · exact List.getLast?_concat _
  · simp [accept_loop, timeoutStep]
  · cases hf : flagErr <;> simp [accept_loop, errStep, hf]
  · cases hf : flagErr <;> cases hb : s.socketBound <;>
      simp [accept_loop, errStep, do_shutdown, andThen, set_shutdown_flag,
        close_server_socket, unlink_socket_file, unlink_pid_file, os_exit,
        hf, hb]

/-- Witness for C4: a concrete malformed-JSON connection is logged and
answered with the error form. -/
theorem connection_failure_contained_witness :
    Ev.logError ∈ (handle_client connBad sigState0).2
    ∧ Ev.sendError "Expecting value" ∈ (handle_client connBad sigState0).2 := by
  have h := (connection_failure_contained connBad sigState0 [] false
      (PyExc.valueError "Expecting value")).2.1 rfl
  exact ⟨h.1, by simpa [connBad, PyExc.str] using h.2⟩

/-- C5: a connection on which no data (or only whitespace) was received is
closed silently, with no response write of any form; a connection whose
nonempty data fails to parse as a JSON object gets an error-form response
(when the peer is still writable); and in both cases the accept loop
continues with the subsequent connections. -/
theorem empty_silent_malformed_error (c : ClientConn) (s : State)
    (d : List Char) (m : String) (rest : List AcceptStep) :
    (c.recv = Except.ok d → stripEmpty d = true →
      (handle_client c s).2.filter Ev.isSend = []
      ∧ Ev.closeConn ∈ (handle_client c s).2)
    ∧ (c.recv = Except.ok d → stripEmpty d = false →
        c.parse = Except.error m → c.errSendFails = false →
        Ev.sendError m ∈ (handle_client c s).2)
    ∧ (accept_loop (connStep c :: rest) s).2
        = (handle_client c s).2 ++ (accept_loop rest (handle_client c s).1).2 := by
  refine ⟨fun hr hd => ?_, fun hr hd hp he => ?_, ?_⟩
  · simp [handle_client, handle_client_try, handle_client_after_recv,
      hr, hd, Ev.isSend]
  · simp [handle_client, handle_client_try, handle_client_after_recv,
      hr, hd, hp, he, handle_client_exc, PyExc.str]
  · simp [accept_loop, connStep]

/-- Witness for C5: a concrete silent no-data connection and a concrete
malformed connection. -/
theorem empty_silent_malformed_error_witness :
    ((handle_client connEmpty sigState0).2.filter Ev.isSend = []
      ∧ Ev.closeConn ∈ (handle_client connEmpty sigState0).2)
    ∧ Ev.sendError "Expecting value" ∈ (handle_client connBad sigState0).2 := by
  refine ⟨(empty_silent_malformed_error connEmpty sigState0 [] "x" []).1 rfl rfl, ?_⟩
  exact (empty_silent_malformed_error connBad sigState0 ['z'] "Expecting value"
    []).2.1 rfl rfl rfl rfl

/-- C6: each iteration of the idle watchdog loop computes
`remaining = idleTimeout − (now − lastRequestTime)`; with the shutdown flag
unset it triggers shutdown and ends the loop when `remaining ≤ 0`, and
otherwise performs a wait of `min (remaining + 0.5) 10` seconds on the
shared shutdown event (hence interruptible by it) before re-checking; a set
flag ends the loop promptly. -/
theorem idle_watchdog_iteration_spec (it : Time) (o : IdleObs)
    (rest : List IdleObs) :
    (o.flag = true → idle_watchdog_run it (o :: rest) = [IdleAction.exitLoop])
    ∧ (o.flag = false → it - (o.now - o.lastReq) ≤ 0 →
        idle_watchdog_run it (o :: rest) = [IdleAction.triggerShutdown])
    ∧ (o.flag = false → 0 < it - (o.now - o.lastReq) →
        idle_watchdog_run it (o :: rest)
          = IdleAction.waitShutdownEvent
              (min (it - (o.now - o.lastReq) + 1/2) 10)
              :: idle_watchdog_run it rest) := by
  refine ⟨fun h => ?_, fun h h2 => ?_, fun h h2 => ?_⟩
  · simp [idle_watchdog_run, idle_watchdog_iter, h]
  · simp [idle_watchdog_run, idle_watchdog_iter, h, h2]
  · simp [idle_watchdog_run, idle_watchdog_iter, h, not_le.mpr h2]

/-- Witness for C6 at concrete times: flag set, timeout expired, and 100
seconds remaining (wait capped at 10). -/
theorem idle_watchdog_iteration_spec_witness :
    idle_watchdog_run 300 [⟨true, 500, 200⟩] = [IdleAction.exitLoop]
    ∧ idle_watchdog_run 300 [⟨false, 501, 200⟩] = [IdleAction.triggerShutdown]
    ∧ idle_watchdog_run 300 [⟨false, 400, 200⟩]
        = [IdleAction.waitShutdownEvent 10] := by
  refine ⟨(idle_watchdog_iteration_spec 300 ⟨true, 500, 200⟩ []).1 rfl,
    (idle_watchdog_iteration_spec 300 ⟨false, 501, 200⟩ []).2.1 rfl (by norm_num),
    ?_⟩
  have h := (idle_watchdog_iteration_spec 300 ⟨false, 400, 200⟩ []).2.2 rfl
    (by norm_num)
  rw [h]
  norm_num [idle_watchdog_run, min_def]

/-- C7: the parent watchdog compares every observation against the parent
pid recorded exactly once at startup; a recorded pid ≤ 1 (orphan) triggers
shutdown immediately; otherwise each iteration with the flag unset triggers
shutdown as soon as the current parent pid differs from the recorded one,
and otherwise performs a 2-second wait on the shared shutdown event (hence
interruptible by it) before re-checking; a set flag ends the loop. -/
theorem parent_watchdog_spec_thm (pid : Nat) (obs : List PwObs) (o : PwObs)
    (rest : List PwObs) :
    (pid ≤ 1 → parent_watchdog_run pid obs = [PwAction.shutdownOrphanAtStart])
    ∧ (1 < pid →
        parent_watchdog_run pid obs
          = PwAction.started :: parent_watchdog_loop pid obs)
    ∧ (o.flag = true →
        parent_watchdog_loop pid (o :: rest) = [PwAction.exitLoop])
    ∧ (o.flag = false → o.ppid ≠ pid →
        parent_watchdog_loop pid (o :: rest)
          = [PwAction.shutdownParentChanged pid o.ppid])
    ∧ (o.flag = false → o.ppid = pid →
        parent_watchdog_loop pid (o :: rest)
          = PwAction.waitTwoSeconds :: parent_watchdog_loop pid rest) := by
  refine ⟨fun h => ?_, fun h => ?_, fun h => ?_, fun h h2 => ?_,
    fun h h2 => ?_⟩
  · simp [parent_watchdog_run, h]
  · simp [parent_watchdog_run, Nat.not_le.mpr h]
  · simp [parent_watchdog_loop, h]
  · simp [parent_watchdog_loop, h, h2]
  · simp [parent_watchdog_loop, h, h2]

/-- Witness for C7: an orphan at startup shuts down immediately; a live
parent that later changes is detected after one wait interval. -/
theorem parent_watchdog_spec_witness :
    parent_watchdog_run 1 [] = [PwAction.shutdownOrphanAtStart]
    ∧ parent_watchdog_run 5 [⟨false, 5⟩, ⟨false, 1⟩]
        = [PwAction.started, PwAction.waitTwoSeconds,
           PwAction.shutdownParentChanged 5 1] := by
  refine ⟨(parent_watchdog_spec_thm 1 [] ⟨false, 0⟩ []).1 (by norm_num), ?_⟩
  have h1 := (parent_watchdog_spec_thm 5 [⟨false, 5⟩, ⟨false, 1⟩] ⟨false, 5⟩
    [⟨false, 1⟩]).2.1 (by norm_num)
  have h2 := (parent_watchdog_spec_thm 5 [] ⟨false, 5⟩ [⟨false, 1⟩]).2.2.2.2
    rfl rfl
  have h3 := (parent_watchdog_spec_thm 5 [] ⟨false, 1⟩ []).2.2.2.1 rfl
    (by norm_num)
  rw [h1, h2, h3]

/-- C8: startup performs exactly the specified order of steps; an
unavailable lock exits with status 0 after only the data-directory and lock
steps; a model-load failure is fatal and stops the trace before warmup;
warmup failure is non-fatal (the trace and the Ready outcome hold for either
warmup result, and `warmup_pipeline` turns a generation failure into a log
line); and exactly one watchdog is started, selected by mode. -/
theorem startup_order_spec (pid : Nat) (env : MainEnv) (fs : Fs) (m : String) :
    (env.lockAvailable = true → env.loadModelOk = true →
      (main_startup pid env fs).1
        = [StartupStep.ensureDataDir, StartupStep.tryAcquireLock,
           StartupStep.writePidRecord, StartupStep.removeStaleSocket,
           StartupStep.purgeTempDirs, StartupStep.installSignalHandlers,
           StartupStep.loadModel, StartupStep.warmupGeneration env.warmupOk,
           (if env.managedMode then StartupStep.startParentWatchdog
            else StartupStep.startIdleWatchdog),
           StartupStep.bindListenSocket, StartupStep.enterAcceptLoop]
      ∧ (main_startup pid env fs).2.2 = MainOutcome.ready
      ∧ (main_startup pid env fs).1.filter StartupStep.startsWatchdog
          = [if env.managedMode then StartupStep.startParentWatchdog
             else StartupStep.startIdleWatchdog])
    ∧ (env.lockAvailable = false →
        (main_startup pid env fs).1
          = [StartupStep.ensureDataDir, StartupStep.tryAcquireLock,
             StartupStep.exitAlreadyRunning]
        ∧ (main_startup pid env fs).2.2 = MainOutcome.exited 0)
    ∧ (env.lockAvailable = true → env.loadModelOk = false →
        (main_startup pid env fs).1
          = [StartupStep.ensureDataDir, StartupStep.tryAcquireLock,
             StartupStep.writePidRecord, StartupStep.removeStaleSocket,
             StartupStep.purgeTempDirs, StartupStep.installSignalHandlers,
             StartupStep.loadModel]
        ∧ (main_startup pid env fs).2.2 = MainOutcome.fatalUnhandled)
    ∧ warmup_pipeline (Except.error m)
        = [Ev.logWarmingUp, Ev.logWarmupFailed m] := by
  refine ⟨fun h1 h2 => ?_, fun h1 => ?_, fun h1 h2 => ?_, rfl⟩
  · cases hm : env.managedMode <;>
      simp [main_startup, h1, h2, hm, StartupStep.startsWatchdog]
  · simp [main_startup, h1]
  · simp [main_startup, h1, h2]

/-- Witness for C8: a concrete successful default-mode startup and a
concrete managed-mode startup with a fatal model-load failure. -/
theorem startup_order_spec_witness :
    (main_startup 42 envDefaultOk fs0).2.2 = MainOutcome.ready
    ∧ (main_startup 42 envDefaultOk fs0).1.filter StartupStep.startsWatchdog
        = [StartupStep.startIdleWatchdog]
    ∧ (main_startup 42 envManagedLoadFail fs0).2.2
        = MainOutcome.fatalUnhandled := by
  have h1 := (startup_order_spec 42 envDefaultOk fs0 "x").1 rfl rfl
  have h2 := (startup_order_spec 42 envManagedLoadFail fs0 "x").2.2.1 rfl rfl
  exact ⟨h1.2.1, by simpa [envDefaultOk] using h1.2.2, h2.2⟩

/-- The trajectory of `last_request_time` along a run of connections is the
initial value followed by the receipt times. -/
theorem client_states_times (conns : List ClientConn) (s : State) :
    (client_states conns s).map State.lastRequestTime
      = s.lastRequestTime :: conns.map ClientConn.now := by
  induction conns generalizing s with
  | nil => rfl
  | cons c cs ih =>
    have hs : client_states (c :: cs) s
        = s :: client_states cs (handle_client c s).1 := rfl
    rw [hs, List.map_cons, ih, List.map_cons]
    rfl

/-- C9: `last_request_time` is written at receipt — it is the very first
event of every connection's handling, before generation — and nowhere else:
the shutdown routine and the signal handler preserve it; consequently along
any run of connections whose receipt times are non-decreasing (starting no
earlier than the initial value) the successive values are non-decreasing. -/
theorem last_request_time_monotone_receipt (c : ClientConn) (s : State)
    (n : Nat) (conns : List ClientConn) :
    (handle_client c s).1.lastRequestTime = c.now
    ∧ (handle_client c s).2.take 1 = [Ev.setLastRequest c.now]
    ∧ (do_shutdown s).1.lastRequestTime = s.lastRequestTime
    ∧ (handle_signal n s).1.lastRequestTime = s.lastRequestTime
    ∧ (List.Chain (· ≤ ·) s.lastRequestTime (conns.map ClientConn.now) →
        List.Chain' (· ≤ ·)
          ((client_states conns s).map State.lastRequestTime)) := by
  refine ⟨rfl, rfl, ?_, ?_, fun h => ?_⟩
  · cases hb : s.socketBound <;>
      simp [do_shutdown, andThen, set_shutdown_flag, close_server_socket,
        unlink_socket_file, unlink_pid_file, os_exit, hb]
  · cases hb : s.socketBound <;>
      simp [handle_signal, do_shutdown, andThen, set_shutdown_flag,
        close_server_socket, unlink_socket_file, unlink_pid_file, os_exit, hb]
  · rw [client_states_times]
    exact h

/-- Witness for C9: a concrete two-connection run with non-decreasing
receipt times yields a non-decreasing trajectory. -/
theorem last_request_time_monotone_receipt_witness :
    List.Chain' (· ≤ ·)
      ((client_states [connEmpty, connBad] sigState0).map State.lastRequestTime)
    ∧ (handle_client connEmpty sigState0).1.lastRequestTime = connEmpty.now := by
  have h := last_request_time_monotone_receipt connEmpty sigState0 15
    [connEmpty, connBad]
  refine ⟨h.2.2.2.2 ?_, h.1⟩
  refine List.Chain.cons ?_ (List.Chain.cons ?_ List.Chain.nil) <;>
    norm_num [sigState0, connEmpty, connBad]

/-- C10: the client handler sets `last_request_time` to the connection's
entry time before reading any bytes: the first two events of every
connection's handling are the timestamp write and then the recv loop, and
the resulting state carries the new time — for every connection, including
ones that send nothing or only malformed data. -/
theorem reset_idle_window_before_read (c : ClientConn) (s : State) :
    (handle_client c s).2.take 2 = [Ev.setLastRequest c.now, Ev.recvBytes]
    ∧ (handle_client c s).1.lastRequestTime = c.now := by
  constructor
  · rcases hr : c.recv with e | data <;>
      simp [handle_client, handle_client_try, hr]
  · rfl

end TtsServer
